import Mathlib

/-!
Shallow embedding of `src/src/main.go` (project-nexus): a minimal HTTP server
with two routes (GET "/" serving a static HTML page, POST "/{rootParam}"
echoing the path parameter as JSON) and a logrus-style JSON file logger.

Modelling conventions:
* A URL path is represented by its list of segments after the leading slash,
  so the path "/" is `[""]`, "/hello" is `["hello"]`, and "/a/b" is
  `["a", "b"]`.  A string is a well-formed single segment iff it contains no
  slash character.
* Calls into the runtime (opening the log file, binding the listen socket,
  the file system backing `http.ServeFile`, the JSON encoder) are passed in
  as explicit function arguments, so that every handler is a pure function
  of its own request plus those effects.
* `ProcOutcome` distinguishes a normal result from a `log.Fatal`-style
  termination: `fatal msg` means the process logs `msg` and exits.
-/

namespace ProjectNexus

/-- Go constant `DEBUG_MODE` (main.go line 26). -/
def DEBUG_MODE : Bool := true

/-- Go constant `LOG_PATH` (main.go line 29). -/
def LOG_PATH : String := "./logs/"

/-- Go variable `LOG_STAMP` (main.go line 32). -/
def LOG_STAMP : String := "pn-main"

/-- Go constant `SERVER_PORT` (main.go line 35). -/
def SERVER_PORT : String := ":3000"

/-- Go constant `PATH_TO_HOME_HTML` (main.go line 38). -/
def PATH_TO_HOME_HTML : String := "./src/web/pages/home/home.html"

/-- Go struct `POST_Home_Response` (main.go lines 42-47), with JSON tags
`msg`, `param`, `time` on the three fields. -/
structure POST_Home_Response where
  Message : String
  Parameter : String
  Timestamp : String
  deriving DecidableEq

/-- JSON values; strings and flat objects are all this program produces. -/
inductive Json where
  | str : String → Json
  | obj : List (String × Json) → Json

/-- The JSON object produced by Go's `encoding/json` for a
`POST_Home_Response`, following the struct tags. -/
def POST_Home_Response.toJson (r : POST_Home_Response) : Json :=
  .obj [("msg", .str r.Message), ("param", .str r.Parameter),
        ("time", .str r.Timestamp)]

/-- Modelled from the spec: Go's `encoding/json` encoder applied to the flat
string struct `POST_Home_Response`.  Encoding such a struct always succeeds
(the spec notes serialization "practically never" fails for a flat string
record); the handler itself is additionally stated over an arbitrary
fallible encoder to capture its error check. -/
def goJsonEncode (r : POST_Home_Response) : Except String Json :=
  .ok r.toJson

/-- logrus severity levels (`log.DebugLevel`, `log.ErrorLevel`, ...). -/
inductive LogLevel where
  | panicLevel
  | fatalLevel
  | errorLevel
  | warnLevel
  | infoLevel
  | debugLevel
  | traceLevel
  deriving DecidableEq

/-- logrus record format: the default text formatter or `log.JSONFormatter`. -/
inductive LogFormat where
  | textFormat
  | jsonFormat
  deriving DecidableEq

/-- The process-wide logger configuration produced by `initLogger`:
destination file, record format, and minimum severity to log. -/
structure LoggerConfig where
  output : String
  format : LogFormat
  level : LogLevel
  deriving DecidableEq

/-- Result of a code path that may call `log.Fatal`: `fatal msg` means the
process writes `msg` to the current log destination / console and exits. -/
inductive ProcOutcome (α : Type) where
  | ok : α → ProcOutcome α
  | fatal : String → ProcOutcome α
  deriving DecidableEq

/-- The flag bits `os.O_CREATE`, `os.O_APPEND`, `os.O_WRONLY` passed to
`os.OpenFile` (main.go line 69). -/
structure OpenFlags where
  create : Bool
  append : Bool
  writeOnly : Bool
  deriving DecidableEq

/-- The log file path `LOG_PATH + LOG_STAMP + ".log"` (main.go line 69). -/
def logFilePath : String := LOG_PATH ++ LOG_STAMP ++ ".log"

/-- The open mode `os.O_CREATE|os.O_APPEND|os.O_WRONLY` (main.go line 69). -/
def logOpenFlags : OpenFlags :=
  { create := true, append := true, writeOnly := true }

/-- The file permission `0644` passed to `os.OpenFile` (main.go line 69). -/
def logOpenPerm : Nat := 0o644

/-- `initLogger` (main.go lines 68-81), with the compile-time constant
`DEBUG_MODE` generalised to the argument `debugMode` and the OS call
`os.OpenFile` passed in as `openFile` (path, flags, permission → handle or
error).  On open failure it calls `log.Fatal(err)`; on success it sets the
output to the opened file, the formatter to `JSONFormatter`, and the level
to `DebugLevel` when debugging, `ErrorLevel` otherwise. -/
def initLoggerD (debugMode : Bool)
    (openFile : String → OpenFlags → Nat → Except String Unit) :
    ProcOutcome LoggerConfig :=
  match openFile logFilePath logOpenFlags logOpenPerm with
  | .error e => .fatal e
  | .ok _ =>
    .ok { output := logFilePath
          format := .jsonFormat
          level := if debugMode then .debugLevel else .errorLevel }

/-- `initLogger` as compiled: `initLoggerD` at the constant `DEBUG_MODE`. -/
def initLogger (openFile : String → OpenFlags → Nat → Except String Unit) :
    ProcOutcome LoggerConfig :=
  initLoggerD DEBUG_MODE openFile

/-- `prelimSetup` (main.go lines 84-91): runs `initLogger` (whose `log.Fatal`
on failure exits before `prelimSetup` can return) and then returns `true`. -/
def prelimSetup (openFile : String → OpenFlags → Nat → Except String Unit) :
    ProcOutcome Bool :=
  match initLogger openFile with
  | .fatal e => .fatal e
  | .ok _ => .ok true

/-- A response body: plain text (the static page / the built-in not-found
page) or a JSON document (the echo handler). -/
inductive Body where
  | text : String → Body
  | jsonBody : Json → Body

/-- An HTTP response as the handlers build it: status code, the
`Content-Type` header if one was set, and the body. -/
structure HttpResponse where
  status : Nat
  contentType : Option String
  body : Body

/-- Modelled from the spec: `http.ServeFile` (Go standard library, not part
of this repository).  `fs` is the file system (path → contents when the
file exists and is readable).  When the file is present it is streamed with
status 200; when it is missing or unreadable the mechanism produces a
standard HTTP error response (404 per the spec's not-found behavior). -/
def http_ServeFile (fs : String → Option String) (path : String) :
    Nat × Body :=
  match fs path with
  | some contents => (200, .text contents)
  | none => (404, .text "404 page not found")

/-- `prh_GET_Home` (main.go lines 133-137): sets
`Content-Type: text/html; charset=utf-8` and hands the request to
`http.ServeFile` for `PATH_TO_HOME_HTML`, forwarding its status and body
without any special-casing of failure. -/
def prh_GET_Home (fs : String → Option String) : HttpResponse :=
  { status := (http_ServeFile fs PATH_TO_HOME_HTML).1
    contentType := some "text/html; charset=utf-8"
    body := (http_ServeFile fs PATH_TO_HOME_HTML).2 }

/-- The response struct populated by `prh_POST_Home` (main.go lines
152-156): fixed greeting, the captured `rootParam`, and
`time.Now().UTC().String()` passed in as `now`. -/
def postHomePayload (rootParam now : String) : POST_Home_Response :=
  { Message := "Hey, you found an API Easter Egg!"
    Parameter := rootParam
    Timestamp := now }

/-- `prh_POST_Home` (main.go lines 141-170): sets
`Content-Type: application/json`, populates `POST_Home_Response` from the
captured `rootParam` and the current UTC time (`now`), encodes it with the
JSON encoder `enc`, and calls `log.Fatalln` if encoding fails.  On success
the framework writes the encoded body with status 200. -/
def prh_POST_Home (enc : POST_Home_Response → Except String Json)
    (rootParam now : String) : ProcOutcome HttpResponse :=
  match enc (postHomePayload rootParam now) with
  | .error e => .fatal e
  | .ok j =>
    .ok { status := 200
          contentType := some "application/json"
          body := .jsonBody j }

/-- Which handler a request is dispatched to: the home page handler, the
echo handler with its captured `rootParam`, or the not-found fallback. -/
inductive Dispatch where
  | home
  | echo : String → Dispatch
  | notFound
  deriving DecidableEq

/-- Modelled from the spec: the matching behavior of the gorilla/mux route
table built by `initRouter` (main.go lines 96-115; the mux library itself
is not part of this repository).  Per the spec: `GET /` goes to the home
handler; `POST /{rootParam}` captures exactly one dynamic path segment
(which may be the empty string when the segment is present but empty); all
other (method, path) combinations fall through to the default not-found
behavior.  Paths are segment lists, so `[""]` is "/" and `[p]` is "/p". -/
def matchRoutes (method : String) (path : List String) : Dispatch :=
  if method = "GET" ∧ path = [""] then .home
  else if method = "POST" then
    match path with
    | [p] => .echo p
    | _ => .notFound
  else .notFound

/-- The response of the default not-found behavior (modelled from the spec:
"must return a 404 status"). -/
def notFoundResponse : HttpResponse :=
  { status := 404, contentType := none, body := .text "404 page not found" }

/-- One request served through the router built by `initRouter`: dispatch
on (method, path segments) and run the matched handler.  `fs` backs the
static home page, `enc` is the JSON encoder, `now` is the UTC timestamp
the POST handler reads for this request. -/
def serve (fs : String → Option String)
    (enc : POST_Home_Response → Except String Json) (now : String)
    (method : String) (path : List String) : ProcOutcome HttpResponse :=
  match matchRoutes method path with
  | .home => .ok (prh_GET_Home fs)
  | .echo p => prh_POST_Home enc p now
  | .notFound => .ok notFoundResponse

/-- The status code of a served request, when the handler did not
terminate the process. -/
def statusOf : ProcOutcome HttpResponse → Option Nat
  | .ok r => some r.status
  | .fatal _ => none

/-- Field lookup in a JSON object. -/
def Json.lookupField : Json → String → Option Json
  | .str _, _ => none
  | .obj fields, k => fields.lookup k

/-- The `param` field of the JSON body of a served response, when the
outcome is a response with a JSON body. -/
def bodyParam : ProcOutcome HttpResponse → Option Json
  | .fatal _ => none
  | .ok r =>
    match r.body with
    | .text _ => none
    | .jsonBody j => j.lookupField "param"

/-- Outcome of running `main` up to the point where the server is live:
either some `log.Fatal` path ended the process with a message, or the
process is serving (blocked in `http.ListenAndServe`). -/
inductive RunOutcome where
  | fatalExit : String → RunOutcome
  | serving : RunOutcome
  deriving DecidableEq

/-- `initWebServer` (main.go lines 118-130) after `bind`, the outcome of
`http.ListenAndServe(SERVER_PORT, ...)`: `.ok` means the listen loop is
running (the call blocks and never returns), `.error e` means it returned
the error `e`, on which the code calls `log.Fatalln(err.Error())`. -/
def initWebServer (bind : Except String Unit) : RunOutcome :=
  match bind with
  | .error e => .fatalExit e
  | .ok _ => .serving

/-- The code `main` runs after `prelimSetup` succeeds (main.go lines
56-59): build the router with `initRouter` and start the server. -/
def mainAfterSetup (bind : Except String Unit) : RunOutcome :=
  initWebServer bind

/-- `main` (main.go lines 51-63): run `prelimSetup`; if it returns `true`
build the router and start the server, otherwise `log.Fatalln` with
"prelimSetup() failed.".  A `log.Fatal` inside setup exits the process
directly. -/
def mainRun (openFile : String → OpenFlags → Nat → Except String Unit)
    (bind : Except String Unit) : RunOutcome :=
  match prelimSetup openFile with
  | .fatal e => .fatalExit e
  | .ok b =>
    if b then mainAfterSetup bind
    else .fatalExit "prelimSetup() failed."

/-! Helper lemmas shared by several claim theorems. -/

/-- `initLoggerD` succeeds exactly when the open call succeeds, and then
produces the one configuration determined by the debug flag. -/
theorem initLoggerD_ok_iff (d : Bool)
    (op : String → OpenFlags → Nat → Except String Unit)
    (cfg : LoggerConfig) :
    initLoggerD d op = .ok cfg ↔
      op logFilePath logOpenFlags logOpenPerm = .ok () ∧
      cfg = { output := logFilePath, format := .jsonFormat,
              level := if d then .debugLevel else .errorLevel } := by
  unfold initLoggerD
  cases hop : op logFilePath logOpenFlags logOpenPerm with
  | error e => simp
  | ok u => cases u; simp [eq_comm]

/-- `initLoggerD` is fatal exactly when the open call fails, with the same
error message. -/
theorem initLoggerD_fatal_iff (d : Bool)
    (op : String → OpenFlags → Nat → Except String Unit) (e : String) :
    initLoggerD d op = .fatal e ↔
      op logFilePath logOpenFlags logOpenPerm = .error e := by
  unfold initLoggerD
  cases hop : op logFilePath logOpenFlags logOpenPerm with
  | error e' => simp
  | ok u => simp

/-! Claim theorems. -/

/-- C1: for every valid path segment `p` (no slash; the empty string
included), a POST request to `/p` is dispatched to the echo handler and
returns status 200 with a JSON body whose `param` field is exactly `p`;
the parameter is never absent. -/
theorem post_echoes_param_with_200 (fs : String → Option String)
    (now p : String) (_hp : '/' ∉ p.data) :
    matchRoutes "POST" [p] = .echo p ∧
    statusOf (serve fs goJsonEncode now "POST" [p]) = some 200 ∧
    bodyParam (serve fs goJsonEncode now "POST" [p]) = some (.str p) :=
  ⟨rfl, rfl, rfl⟩

theorem post_echoes_param_with_200_witness :
    ('/' ∉ "".data ∧
      statusOf (serve (fun _ => none) goJsonEncode "t" "POST" [""]) =
        some 200 ∧
      bodyParam (serve (fun _ => none) goJsonEncode "t" "POST" [""]) =
        some (.str "")) ∧
    ('/' ∉ "he~l-o_1.%20".data ∧
      bodyParam
          (serve (fun _ => none) goJsonEncode "t" "POST" ["he~l-o_1.%20"]) =
        some (.str "he~l-o_1.%20")) :=
  ⟨⟨by decide,
    (post_echoes_param_with_200 (fun _ => none) "t" "" (by decide)).2.1,
    (post_echoes_param_with_200 (fun _ => none) "t" "" (by decide)).2.2⟩,
   by decide,
   (post_echoes_param_with_200 (fun _ => none) "t" "he~l-o_1.%20"
      (by decide)).2.2⟩

/-- C2: a successful POST response is exactly the JSON object with the
three string fields `msg` (the fixed greeting), `param` (the captured
segment) and `time` (the current UTC time rendered as a string, passed in
as `now`), sent with status 200 and `Content-Type: application/json`. -/
theorem post_response_is_exact_three_field_json (p now : String) :
    prh_POST_Home goJsonEncode p now =
      .ok { status := 200
            contentType := some "application/json"
            body := .jsonBody (.obj
              [("msg", .str "Hey, you found an API Easter Egg!"),
               ("param", .str p), ("time", .str now)]) } :=
  rfl

/-- C3: a request whose (method, path) pair matches neither `GET /` nor
`POST /{rootParam}` falls through to the default not-found behavior and
returns status 404. -/
theorem unmatched_request_returns_404 (fs : String → Option String)
    (enc : POST_Home_Response → Except String Json) (now method : String)
    (path : List String)
    (h1 : ¬(method = "GET" ∧ path = [""]))
    (h2 : ¬∃ p : String, method = "POST" ∧ path = [p]) :
    matchRoutes method path = .notFound ∧
    serve fs enc now method path = .ok notFoundResponse ∧
    notFoundResponse.status = 404 := by
  have hm : matchRoutes method path = .notFound := by
    unfold matchRoutes
    rw [if_neg h1]
    by_cases hp : method = "POST"
    · rw [if_pos hp]
      cases path with
      | nil => rfl
      | cons a t =>
        cases t with
        | nil => exact absurd ⟨a, hp, rfl⟩ h2
        | cons b t' => rfl
    · rw [if_neg hp]
  exact ⟨hm, by simp [serve, hm], rfl⟩

theorem unmatched_request_returns_404_witness :
    serve (fun _ => none) goJsonEncode "t" "DELETE" [""] =
      .ok notFoundResponse ∧
    notFoundResponse.status = 404 :=
  ⟨(unmatched_request_returns_404 (fun _ => none) goJsonEncode "t" "DELETE"
      [""] (by simp) (by simp)).2.1,
   (unmatched_request_returns_404 (fun _ => none) goJsonEncode "t" "DELETE"
      [""] (by simp) (by simp)).2.2⟩

/-- C4: logger setup opens exactly the path `LOG_PATH ++ LOG_STAMP ++
".log"` (concretely "./logs/pn-main.log") with create/append/write-only
flags; if the open fails the process terminates at once with that error
(in particular, `initLogger` depends on nothing but that single open
call, so there is no retry); if it succeeds the logger writes to that file
with the JSON formatter. -/
theorem initLogger_opens_exact_path_append_fatal_on_error :
    logFilePath = "./logs/pn-main.log" ∧
    logOpenFlags = { create := true, append := true, writeOnly := true } ∧
    (∀ (op : String → OpenFlags → Nat → Except String Unit) (e : String),
      op logFilePath logOpenFlags logOpenPerm = .error e →
      initLogger op = .fatal e) ∧
    (∀ op : String → OpenFlags → Nat → Except String Unit,
      op logFilePath logOpenFlags logOpenPerm = .ok () →
      ∃ cfg, initLogger op = .ok cfg ∧ cfg.output = logFilePath ∧
        cfg.format = .jsonFormat) ∧
    (∀ o₁ o₂ : String → OpenFlags → Nat → Except String Unit,
      o₁ logFilePath logOpenFlags logOpenPerm =
        o₂ logFilePath logOpenFlags logOpenPerm →
      initLogger o₁ = initLogger o₂) := by
  refine ⟨rfl, rfl, ?_, ?_, ?_⟩
  · intro op e h
    simp only [initLogger, initLoggerD, h]
  · intro op h
    refine ⟨{ output := logFilePath, format := .jsonFormat,
              level := if DEBUG_MODE then .debugLevel else .errorLevel },
            ?_, rfl, rfl⟩
    simp only [initLogger, initLoggerD, h]
  · intro o₁ o₂ h
    simp only [initLogger, initLoggerD, h]

theorem initLogger_opens_exact_path_append_fatal_on_error_witness :
    initLogger (fun _ _ _ => .error "open ./logs/pn-main.log: no such file")
        = .fatal "open ./logs/pn-main.log: no such file" ∧
    ∃ cfg, initLogger (fun _ _ _ => .ok ()) = .ok cfg ∧
      cfg.output = logFilePath ∧ cfg.format = .jsonFormat :=
  ⟨initLogger_opens_exact_path_append_fatal_on_error.2.2.1 _ _ rfl,
   initLogger_opens_exact_path_append_fatal_on_error.2.2.2.1 _ rfl⟩

/-- C5: after logger setup the minimum severity is debug-and-above when
the build-time debug flag is true and error-and-above otherwise, and the
flag has no other effect on the configuration: output, formatter and the
fatal/success outcome are the same for both flag values.  The compiled
binary runs with `DEBUG_MODE = true`. -/
theorem debug_flag_only_sets_level :
    DEBUG_MODE = true ∧
    (∀ op, initLogger op = initLoggerD true op) ∧
    (∀ op cfg, initLoggerD true op = .ok cfg → cfg.level = .debugLevel) ∧
    (∀ op cfg, initLoggerD false op = .ok cfg → cfg.level = .errorLevel) ∧
    (∀ (d₁ d₂ : Bool) op cfg₁ cfg₂, initLoggerD d₁ op = .ok cfg₁ →
      initLoggerD d₂ op = .ok cfg₂ →
      cfg₁.output = cfg₂.output ∧ cfg₁.format = cfg₂.format) ∧
    (∀ (d₁ d₂ : Bool) op e,
      initLoggerD d₁ op = .fatal e ↔ initLoggerD d₂ op = .fatal e) := by
  refine ⟨rfl, fun op => rfl, ?_, ?_, ?_, ?_⟩
  · intro op cfg h
    rw [initLoggerD_ok_iff] at h
    rw [h.2]
    rfl
  · intro op cfg h
    rw [initLoggerD_ok_iff] at h
    rw [h.2]
    rfl
  · intro d₁ d₂ op cfg₁ cfg₂ h₁ h₂
    rw [initLoggerD_ok_iff] at h₁ h₂
    rw [h₁.2, h₂.2]
    exact ⟨rfl, rfl⟩
  · intro d₁ d₂ op e
    rw [initLoggerD_fatal_iff, initLoggerD_fatal_iff]

theorem debug_flag_only_sets_level_witness :
    (∃ cfg, initLoggerD true (fun _ _ _ => .ok ()) = .ok cfg ∧
      cfg.level = .debugLevel) ∧
    (∃ cfg, initLoggerD false (fun _ _ _ => .ok ()) = .ok cfg ∧
      cfg.level = .errorLevel) :=
  ⟨⟨_, rfl, debug_flag_only_sets_level.2.2.1 (fun _ _ _ => .ok ()) _ rfl⟩,
   ⟨_, rfl, debug_flag_only_sets_level.2.2.2.1 (fun _ _ _ => .ok ()) _ rfl⟩⟩

/-- C6: the echo handler terminates the process exactly when JSON
serialization of its response fails, and the fatal message is the
serialization error; no other condition in the handler ends the
process. -/
theorem echo_fatal_iff_serialization_error
    (enc : POST_Home_Response → Except String Json) (p now e : String) :
    prh_POST_Home enc p now = .fatal e ↔
      enc (postHomePayload p now) = .error e := by
  unfold prh_POST_Home
  cases henc : enc (postHomePayload p now) with
  | error e' => simp
  | ok j => simp

/-- C7: `GET /` sets `Content-Type: text/html; charset=utf-8` and streams
the fixed HTML file: status 200 with the file contents when the backing
file exists, a non-200 error status (404) when it is missing or
unreadable; the handler forwards the file-serving outcome unchanged in
both cases. -/
theorem get_home_serves_html_file (fs : String → Option String) :
    (prh_GET_Home fs).contentType = some "text/html; charset=utf-8" ∧
    (∀ c, fs PATH_TO_HOME_HTML = some c →
      (prh_GET_Home fs).status = 200 ∧ (prh_GET_Home fs).body = .text c) ∧
    (fs PATH_TO_HOME_HTML = none →
      (prh_GET_Home fs).status = 404 ∧ (prh_GET_Home fs).status ≠ 200) ∧
    (prh_GET_Home fs).status = (http_ServeFile fs PATH_TO_HOME_HTML).1 ∧
    (prh_GET_Home fs).body = (http_ServeFile fs PATH_TO_HOME_HTML).2 := by
  refine ⟨rfl, ?_, ?_, rfl, rfl⟩
  · intro c h
    constructor
    · simp [prh_GET_Home, http_ServeFile, h]
    · simp [prh_GET_Home, http_ServeFile, h]
  · intro h
    constructor
    · simp [prh_GET_Home, http_ServeFile, h]
    · simp [prh_GET_Home, http_ServeFile, h]

theorem get_home_serves_html_file_witness :
    ((prh_GET_Home (fun q =>
        if q = PATH_TO_HOME_HTML then some "<html></html>" else none)).status
      = 200) ∧
    (prh_GET_Home (fun _ => none)).status = 404 :=
  ⟨((get_home_serves_html_file _).2.1 "<html></html>" (by simp)).1,
   ((get_home_serves_html_file (fun _ => none)).2.2.1 rfl).1⟩

/-- C8: every startup error is fatal: if the log file cannot be opened,
`main` ends with that error logged and the process exits; if the log file
opens but the listen call fails, `main` ends with the listen error logged
and the process exits. -/
theorem startup_errors_are_fatal
    (op : String → OpenFlags → Nat → Except String Unit)
    (bind : Except String Unit) (e : String) :
    (op logFilePath logOpenFlags logOpenPerm = .error e →
      mainRun op bind = .fatalExit e) ∧
    (op logFilePath logOpenFlags logOpenPerm = .ok () → bind = .error e →
      mainRun op bind = .fatalExit e) := by
  constructor
  · intro h
    simp [mainRun, prelimSetup, initLogger, initLoggerD, h]
  · intro h hb
    simp [mainRun, prelimSetup, initLogger, initLoggerD, mainAfterSetup,
      initWebServer, h, hb]

theorem startup_errors_are_fatal_witness :
    mainRun (fun _ _ _ => .error "permission denied") (.ok ()) =
      .fatalExit "permission denied" ∧
    mainRun (fun _ _ _ => .ok ()) (.error "listen tcp :3000: already in use")
      = .fatalExit "listen tcp :3000: already in use" :=
  ⟨(startup_errors_are_fatal _ _ _).1 rfl,
   (startup_errors_are_fatal _ _ _).2 rfl rfl⟩

/-- C9: the `param` field of an echo response depends only on that
request's own captured path parameter: two requests with equal captured
parameters get equal `param` fields (whatever their timestamps), and the
`param` field always equals the request's own parameter, so no other
request can influence it. -/
theorem echo_param_no_cross_talk (p₁ now₁ p₂ now₂ : String)
    (h : p₁ = p₂) :
    bodyParam (prh_POST_Home goJsonEncode p₁ now₁) =
      bodyParam (prh_POST_Home goJsonEncode p₂ now₂) ∧
    bodyParam (prh_POST_Home goJsonEncode p₁ now₁) = some (.str p₁) := by
  subst h
  exact ⟨rfl, rfl⟩

theorem echo_param_no_cross_talk_witness :
    bodyParam (prh_POST_Home goJsonEncode "alpha" "t1") =
      bodyParam (prh_POST_Home goJsonEncode "alpha" "t2") ∧
    bodyParam (prh_POST_Home goJsonEncode "alpha" "t1") =
      some (.str "alpha") :=
  echo_param_no_cross_talk "alpha" "t1" "alpha" "t2" rfl

/-- C10: whenever `prelimSetup` returns (rather than exiting inside
`initLogger`), it returns `true`; hence `main` never reaches the branch
that logs "prelimSetup() failed." and always proceeds to build the router
and start the web server. -/
theorem prelimSetup_returns_true_always
    (op : String → OpenFlags → Nat → Except String Unit)
    (bind : Except String Unit) (b : Bool)
    (h : prelimSetup op = .ok b) :
    b = true ∧ mainRun op bind = mainAfterSetup bind := by
  have hb : b = true := by
    unfold prelimSetup at h
    cases hl : initLogger op with
    | fatal e => rw [hl] at h; exact absurd h (by simp)
    | ok cfg =>
      rw [hl] at h
      injection h with h'
      exact h'.symm
  refine ⟨hb, ?_⟩
  unfold mainRun
  rw [h, hb]
  rfl

theorem prelimSetup_returns_true_always_witness :
    prelimSetup (fun _ _ _ => .ok ()) = .ok true ∧
    (true = true ∧
      mainRun (fun _ _ _ => .ok ()) (.ok ()) = mainAfterSetup (.ok ())) :=
  ⟨rfl, prelimSetup_returns_true_always (fun _ _ _ => .ok ()) (.ok ())
    true rfl⟩

end ProjectNexus
